import Mathlib

/-!
# Shallow embedding of pyctor's behavior module

This file embeds `src/pyctor/behavior.py` of the `pyctor` actor runtime:
the behavior data model (`BehaviorHandlerImpl`, `LoggingBehaviorHandlerImpl`,
`SuperviseBehaviorHandlerImpl`), the `Behaviors` factory methods, and the
actor processor (`BehaviorProcessorImpl`) with its `handle`, `handle_nowait`
and `behavior_task` message loop.

Modelling conventions:
* Python exceptions become an explicit error type `PyErr`; a call that may
  raise returns a `HandleResult` (the analogue of `Except`).
* Python `None` (the implicit return of a function that falls off the end)
  is the `Behavior.pynone` constructor: in `behavior_task` it matches no
  `case` of the `match` statement, just as `None` does in the source.
* The `isinstance(msg, self._type)` runtime check is modelled by a Boolean
  predicate standing for the type test, and `isinstance(b, BehaviorHandler)`
  by the `Behavior.handler` constructor (the three `*Impl` classes are the
  implementations of the `pyctor.types.BehaviorHandler` protocol; signals
  and `None` are not).
* trio channels: the actor's mailbox is modelled by the finite list of
  messages the senders deliver before the channel reports `EndOfChannel`,
  together with a `closed` flag set by `BehaviorProcessorImpl.stop`
  (`aclosed` send channel: a capacity-0 channel delivers nothing after the
  close, and the next `receive` raises `EndOfChannel`).
* Effects the loop performs (running a setup scope, running its teardown on
  scope exit, the `print` for ignored messages, closing the mailbox) are
  recorded in an event trace; `logger` calls of the handlers are recorded
  as `LogEntry` values.
-/

namespace Pyctor

/-- The four `pyctor.signals.BehaviorSignal` constants exposed as
`Behaviors.Same` (1), `Behaviors.Stop` (2), `Behaviors.Restart` (3) and
`Behaviors.Ignored` (4). -/
inductive BehaviorSignal : Type where
  | Same : BehaviorSignal
  | Stop : BehaviorSignal
  | Restart : BehaviorSignal
  | Ignored : BehaviorSignal
deriving DecidableEq, Repr

/-- `class SuperviseStrategy(Enum)` with members `Restart = 1`, `Stop = 2`,
`Ignore = 3`. -/
inductive SuperviseStrategy : Type where
  | Restart : SuperviseStrategy
  | Stop : SuperviseStrategy
  | Ignore : SuperviseStrategy
deriving DecidableEq, Repr

/-- A Python exception: either an `AssertionError` raised by an `assert`
statement of the module (carrying an abstraction of its message text), or an
arbitrary exception `ε` raised by user code (a handler body or a strategy
callback). Both are subclasses of `Exception`, so both are caught by the
`except Exception` clause of the supervise wrapper. -/
inductive PyErr (ε : Type) : Type where
  | assertionError (m : String) : PyErr ε
  | userExc (e : ε) : PyErr ε
deriving DecidableEq, Repr

/-- A `logger.info` line emitted by `LoggingBehaviorHandlerImpl.handle`. -/
inductive LogEntry (α : Type) : Type where
  | startHandling (m : α) : LogEntry α
  | endHandling (m : α) : LogEntry α
deriving DecidableEq, Repr

mutual

/-- A `pyctor.types.Behavior` value as it flows through the module: either
one of the `BehaviorSignal` constants, or an object implementing the
`BehaviorHandler` protocol, or Python `None` (which the buggy supervise
`match` can produce). -/
inductive Behavior (α ε : Type) : Type where
  | sig (s : BehaviorSignal) : Behavior α ε
  | handler (h : BehaviorHandler α ε) : Behavior α ε
  | pynone : Behavior α ε

/-- The three classes of `behavior.py` implementing the
`pyctor.types.BehaviorHandler` protocol:
* `receive f typeCheck` is `BehaviorHandlerImpl(behavior=f, type_check=...)`;
  `typeCheck = some isinst` models a `type_check` class whose
  `isinstance` test is the predicate `isinst`, `none` models
  `type_check=None`;
* `supervise strategy b` is `SuperviseBehaviorHandlerImpl(strategy, b)`;
* `logging b` is `LoggingBehaviorHandlerImpl(b)`. -/
inductive BehaviorHandler (α ε : Type) : Type where
  | receive (f : α → HandleResult α ε) (typeCheck : Option (α → Bool)) :
      BehaviorHandler α ε
  | supervise (strategy : PyErr ε → Except (PyErr ε) SuperviseStrategy)
      (b : BehaviorHandler α ε) : BehaviorHandler α ε
  | logging (b : BehaviorHandler α ε) : BehaviorHandler α ε

/-- Outcome of an `await b.handle(msg)` call: a returned `Behavior`, or a
raised exception. -/
inductive HandleResult (α ε : Type) : Type where
  | ok (b : Behavior α ε) : HandleResult α ε
  | raised (e : PyErr ε) : HandleResult α ε

end

/-- Message text of the `assert isinstance(msg, self._type)` in
`BehaviorHandlerImpl.handle` (the dynamic `str(...)` parts are omitted). -/
def typeAssertMsg : String := "Can only handle messages of type"

/-- Message of the `assert isinstance(behavior, pyctor.types.BehaviorHandler)`
in `Behaviors.supervise`. -/
def superviseAssertMsg : String :=
  "The supervised behavior needs to implement the BehaviorHandler"

/-- `handle` of the three `BehaviorHandler` implementations, paired with the
`logger` lines the call emits.

* `BehaviorHandlerImpl.handle`: `if self._type: assert isinstance(msg,
  self._type)`, then `return await self._behavior(msg)`.
* `SuperviseBehaviorHandlerImpl.handle`: `try: return await
  self._behavior.handle(msg)` and on `except Exception as e` runs
  `now_what = await self._strategy(e)` and matches it.  NOTE the source's
  third case is `case _, SuperviseStrategy.Ignore:` — a two-element
  *sequence* pattern, which an enum member never matches — so for
  `SuperviseStrategy.Ignore` no case matches and the method falls off the
  end, returning Python `None` (`Behavior.pynone` here), not
  `Behaviors.Same`.
* `LoggingBehaviorHandlerImpl.handle`: logs `Start handling`, delegates,
  logs `End handling` (the second log only if the delegate returns
  normally; a raised exception propagates before it). -/
def BehaviorHandler.run {α ε : Type} :
    BehaviorHandler α ε → α → HandleResult α ε × List (LogEntry α)
  | .receive f tc, msg =>
    match tc with
    | some isinst =>
      if isinst msg then (f msg, [])
      else (.raised (.assertionError typeAssertMsg), [])
    | none => (f msg, [])
  | .supervise strategy b, msg =>
    match b.run msg with
    | (.ok v, logs) => (.ok v, logs)
    | (.raised e, logs) =>
      match strategy e with
      | .error e2 => (.raised e2, logs)
      | .ok .Restart => (.ok (.sig .Restart), logs)
      | .ok .Stop => (.ok (.sig .Stop), logs)
      | .ok .Ignore => (.ok .pynone, logs)
  | .logging b, msg =>
    match b.run msg with
    | (.ok v, logs) => (.ok v, .startHandling msg :: (logs ++ [.endHandling msg]))
    | (.raised e, logs) => (.raised e, .startHandling msg :: logs)

/-- The value/exception outcome of `handle`, with the log lines dropped. -/
def BehaviorHandler.handle {α ε : Type} (b : BehaviorHandler α ε) (msg : α) :
    HandleResult α ε :=
  (b.run msg).1

/-- `Behaviors.receive(func, type_check)`: returns
`BehaviorHandlerImpl(behavior=func, type_check=type_check)` (an object that
is both a `Behavior` and a `BehaviorHandler`; `Behavior.handler` injects it
into `Behavior`). -/
def Behaviors.receive {α ε : Type} (func : α → HandleResult α ε)
    (type_check : Option (α → Bool)) : BehaviorHandler α ε :=
  .receive func type_check

/-- `Behaviors.supervise(strategy, behavior)`: asserts
`isinstance(behavior, pyctor.types.BehaviorHandler)` — only the
`Behavior.handler` injection satisfies the protocol — then returns
`SuperviseBehaviorHandlerImpl(strategy=strategy, behavior=behavior)`.  The
failed assert is the `Except.error` case. -/
def Behaviors.supervise {α ε : Type}
    (strategy : PyErr ε → Except (PyErr ε) SuperviseStrategy)
    (behavior : Behavior α ε) : Except (PyErr ε) (Behavior α ε) :=
  match behavior with
  | .handler h => .ok (.handler (.supervise strategy h))
  | _ => .error (.assertionError superviseAssertMsg)

/-- Warning text logged by `BehaviorProcessorImpl.handle` when the send
channel is already closed. -/
def closedWarnMsg : String := "Could not send message, Behavior already terminated"

/-- What one call to `BehaviorProcessorImpl.handle` (the blocking send used
by `Ref.send`) does, as seen by its caller and the mailbox. -/
structure SendOutcome (α : Type) : Type where
  /-- The exception the call raises to the caller, if any. -/
  raised : Option String
  /-- The message that is delivered into the mailbox, if any. -/
  delivered : Option α
  /-- Warnings written to the logger. -/
  warnings : List String
deriving DecidableEq, Repr

/-- `BehaviorProcessorImpl.handle(msg)`: `await self._send.send(msg)`,
catching `trio.ClosedResourceError` with a `logger.warning(...)` and `pass`.
On an open mailbox the message is handed to the channel; on a closed one the
raised `ClosedResourceError` is swallowed, a warning is logged, and the call
returns normally — nothing is ever raised to the caller. -/
def BehaviorProcessorImpl.handle {α : Type} (closed : Bool) (msg : α) :
    SendOutcome α :=
  if closed then
    { raised := none, delivered := none, warnings := [closedWarnMsg] }
  else
    { raised := none, delivered := some msg, warnings := [] }

/-- `BehaviorProcessorImpl.handle_nowait(msg)`:
`self._nursery.start_soon(self.handle, msg)` — it schedules a deferred run
of `handle` on the caller's nursery, whose eventual effect is exactly a
`handle` call. -/
def BehaviorProcessorImpl.handle_nowait {α : Type} (closed : Bool) (msg : α) :
    SendOutcome α :=
  BehaviorProcessorImpl.handle closed msg

/-- An observable step performed by `behavior_task`. -/
inductive ProcEvent (α : Type) : Type where
  /-- The behavior factory `behavior()` was entered: the async context
  manager ran its setup part and yielded the active handler. -/
  | setupRun : ProcEvent α
  /-- The `async with` scope was exited: the context manager's teardown
  part ran. -/
  | teardown : ProcEvent α
  /-- `print(f"Message ignored: ...")` for message `m`. -/
  | printedIgnored (m : α) : ProcEvent α
  /-- `await self.stop()`: the send channel was `aclose`d, so no further
  message can enter the mailbox. -/
  | mailboxClosed : ProcEvent α

/-- How the `behavior_task` coroutine ends. -/
inductive TaskOutcome (ε : Type) : Type where
  /-- The `while run` loop exited normally (`run` became `False` after
  `trio.EndOfChannel`). -/
  | terminated : TaskOutcome ε
  /-- `behavior()` was called while the local variable `behavior` held a
  `BehaviorHandler` object (after the loop executed `behavior =
  new_behavior`): a `BehaviorHandler` is not callable, so the call raises
  `TypeError` out of the task. -/
  | typeError : TaskOutcome ε
  /-- An exception from `b.handle(msg)` propagated out of the task (only
  `trio.EndOfChannel` is caught by the loop). -/
  | uncaught (e : PyErr ε) : TaskOutcome ε

/-- The argument the processor is constructed with: a callable returning an
async context manager that on entry yields the actor's `BehaviorHandler`
(the generator part before `yield` is the setup, the part after it the
teardown). -/
structure SetupScope (α ε : Type) : Type where
  /-- The handler the context manager yields. -/
  enter : BehaviorHandler α ε

/-- The possible values of the local variable `behavior` inside
`behavior_task`: initially the factory `self._behavior`, but the
`case pyctor.types.BehaviorHandler():` arm reassigns it to the handler
object returned by a dispatch. -/
inductive FactoryVar (α ε : Type) : Type where
  | factory (f : SetupScope α ε) : FactoryVar α ε
  | handlerVal (h : BehaviorHandler α ε) : FactoryVar α ε

/-- The body of `behavior_task` from inside the first `async with`, with
the active handler `b`, the current value `bvar` of the variable
`behavior`, the mailbox-closed flag, and the remaining messages the senders
deliver (after which the channel reports `EndOfChannel`).

Per received message the source matches the dispatch result:
`Behaviors.Ignored` prints, `Behaviors.Same` passes, `Behaviors.Stop`
awaits `self.stop()` (closing the mailbox, so the next `receive` raises
`EndOfChannel`), `Behaviors.Restart` breaks out of the inner loop — the
scope exits (teardown) and the outer `while run` calls `behavior()` again —
and a `BehaviorHandler` result reassigns the variable `behavior` (leaving
`b` untouched); any other value (such as `None`) matches no case.
`trio.EndOfChannel` sets `run = False`; leaving the scope runs the
teardown. -/
def msgLoop {α ε : Type} :
    BehaviorHandler α ε → FactoryVar α ε → Bool → List α →
      List (ProcEvent α) × TaskOutcome ε
  | _, _, _, [] => ([.teardown], .terminated)
  | b, bvar, closed, m :: rest =>
    if closed then
      -- the mailbox was aclosed: `receive` raises `EndOfChannel` before
      -- any of the remaining messages can arrive
      ([.teardown], .terminated)
    else
      match b.handle m with
      | .raised e => ([.teardown], .uncaught e)
      | .ok nb =>
        match nb with
        | .sig .Ignored =>
          let r := msgLoop b bvar closed rest
          (.printedIgnored m :: r.1, r.2)
        | .sig .Same => msgLoop b bvar closed rest
        | .sig .Stop =>
          let r := msgLoop b bvar true rest
          (.mailboxClosed :: r.1, r.2)
        | .sig .Restart =>
          match bvar with
          | .handlerVal _ =>
            -- `async with behavior()` with a non-callable: `TypeError`
            ([.teardown], .typeError)
          | .factory f =>
            let r := msgLoop f.enter bvar closed rest
            (.teardown :: .setupRun :: r.1, r.2)
        | .handler h => msgLoop b (.handlerVal h) closed rest
        | .pynone => msgLoop b bvar closed rest

/-- `BehaviorProcessorImpl.behavior_task`: `behavior = self._behavior;
run = True`, then the `while run` loop opens `behavior()` and runs the
receive/dispatch loop.  `f` is the factory the processor was spawned with
and `msgs` the messages delivered before `EndOfChannel`. -/
def behavior_task {α ε : Type} (f : SetupScope α ε) (msgs : List α) :
    List (ProcEvent α) × TaskOutcome ε :=
  let r := msgLoop f.enter (.factory f) false msgs
  (.setupRun :: r.1, r.2)

/-- Recognizer for teardown events. -/
def isTeardown {α : Type} : ProcEvent α → Bool
  | .teardown => true
  | _ => false

/-- Recognizer for setup-entry events. -/
def isSetupRun {α : Type} : ProcEvent α → Bool
  | .setupRun => true
  | _ => false

/-- Number of events of a trace satisfying `p`. -/
def countEvent {α : Type} (p : ProcEvent α → Bool)
    (tr : List (ProcEvent α)) : Nat :=
  (tr.filter p).length

/-- Every scope the loop enters is exited exactly once: inside
`behavior_task`, the trace of the inner loop always carries one more
teardown than setup entries (the one for the scope already entered). -/
theorem msgLoop_teardown_count {α ε : Type} (msgs : List α)
    (b : BehaviorHandler α ε) (bvar : FactoryVar α ε) (closed : Bool) :
    countEvent isTeardown (msgLoop b bvar closed msgs).1 =
      countEvent isSetupRun (msgLoop b bvar closed msgs).1 + 1 := by
  induction msgs generalizing b bvar closed with
  | nil => rfl
  | cons m rest ih =>
    cases closed with
    | true => rfl
    | false =>
      rcases hh : b.handle m with nb | e
      case raised => simp [msgLoop, hh, countEvent, isTeardown, isSetupRun]
      case ok =>
        rcases nb with s | h2 | _
        case handler =>
          simpa [msgLoop, hh] using ih b (.handlerVal h2) false
        case pynone =>
          simpa [msgLoop, hh] using ih b bvar false
        case sig =>
          cases s with
          | Same => simpa [msgLoop, hh] using ih b bvar false
          | Ignored =>
            simpa [msgLoop, hh, countEvent, isTeardown, isSetupRun]
              using ih b bvar false
          | Stop =>
            simpa [msgLoop, hh, countEvent, isTeardown, isSetupRun]
              using ih b bvar true
          | Restart =>
            cases bvar with
            | handlerVal h3 =>
              simp [msgLoop, hh, countEvent, isTeardown, isSetupRun]
            | factory f =>
              have h1 := ih f.enter (.factory f) false
              simp [msgLoop, hh, countEvent, isTeardown, isSetupRun] at h1 ⊢
              omega

/-! ## Claim theorems -/

/-- C7: `Behaviors.supervise(strategy, behavior)` fails fast at construction
time with the precondition assertion for every argument that does not
implement the `BehaviorHandler` protocol (a bare signal or `None`), and for
every argument that does it returns the supervising wrapper around it. -/
theorem supervise_precondition {α ε : Type}
    (strategy : PyErr ε → Except (PyErr ε) SuperviseStrategy)
    (s : BehaviorSignal) (h : BehaviorHandler α ε) :
    Behaviors.supervise strategy (.sig s : Behavior α ε) =
      .error (.assertionError superviseAssertMsg) ∧
    Behaviors.supervise strategy (.pynone : Behavior α ε) =
      .error (.assertionError superviseAssertMsg) ∧
    Behaviors.supervise strategy (.handler h) =
      .ok (.handler (.supervise strategy h)) :=
  ⟨rfl, rfl, rfl⟩

/-- C9: a behavior built with `Behaviors.receive(f)` and no `type_check`
dispatches every message straight to `f`: `handle msg` is exactly `f msg`,
with no check, no rejection and no log output of its own. -/
theorem receive_no_type_check_transparent {α ε : Type}
    (f : α → HandleResult α ε) (msg : α) :
    (Behaviors.receive f none).handle msg = f msg ∧
    ((Behaviors.receive f none).run msg).2 = [] :=
  ⟨rfl, rfl⟩

/-- C6: with a `type_check` given, every dispatched message is tested
against it before the handler runs: on a failing test the dispatch raises
the type-mismatch `AssertionError` — and does so uniformly in the handler
`f`, which is therefore never invoked — and on a passing test the result is
exactly `f msg`. -/
theorem receive_type_check_guards {α ε : Type} (f : α → HandleResult α ε)
    (isinst : α → Bool) (msg : α) :
    (isinst msg = false →
      (Behaviors.receive f (some isinst)).handle msg =
        .raised (.assertionError typeAssertMsg) ∧
      ∀ g : α → HandleResult α ε,
        (Behaviors.receive g (some isinst)).handle msg =
          .raised (.assertionError typeAssertMsg)) ∧
    (isinst msg = true →
      (Behaviors.receive f (some isinst)).handle msg = f msg) := by
  constructor
  · intro hF
    constructor
    · simp [Behaviors.receive, BehaviorHandler.handle, BehaviorHandler.run, hF]
    · intro g
      simp [Behaviors.receive, BehaviorHandler.handle, BehaviorHandler.run, hF]
  · intro hT
    simp [Behaviors.receive, BehaviorHandler.handle, BehaviorHandler.run, hT]

/-- A concrete handler used to witness the type-check claim. -/
def c6Handler : Nat → HandleResult Nat Unit := fun _ => .ok (.sig .Same)

/-- A concrete type test: only even numbers pass. -/
def c6Check : Nat → Bool := fun n => n % 2 == 0

/-- Witness for C6 at the concrete inputs 3 (fails the check) and 2
(passes it). -/
theorem receive_type_check_guards_witness :
    (Behaviors.receive c6Handler (some c6Check)).handle 3 =
      .raised (.assertionError typeAssertMsg) ∧
    (Behaviors.receive c6Handler (some c6Check)).handle 2 = c6Handler 2 :=
  ⟨((receive_type_check_guards c6Handler c6Check 3).1 rfl).1,
   (receive_type_check_guards c6Handler c6Check 2).2 rfl⟩

/-- C10: the logging wrapper is transparent to dispatch semantics: the
value/exception outcome of `LoggingBehaviorHandlerImpl.handle` is exactly
the wrapped behavior's, and the only difference is the extra log lines
(`Start handling` always, `End handling` only after a normal return). -/
theorem logging_transparent {α ε : Type} (b : BehaviorHandler α ε) (msg : α) :
    (BehaviorHandler.logging b).handle msg = b.handle msg ∧
    ((BehaviorHandler.logging b).run msg).2 =
      (match b.handle msg with
       | .ok _ => .startHandling msg :: ((b.run msg).2 ++ [.endHandling msg])
       | .raised _ => .startHandling msg :: (b.run msg).2) := by
  rcases hr : b.run msg with ⟨r, logs⟩
  cases r <;>
    simp [BehaviorHandler.handle, BehaviorHandler.run, hr]

/-- Inner behavior that raises on every message (exception code 7). -/
def c1Inner : BehaviorHandler Nat Nat :=
  .receive (fun _ => .raised (.userExc 7)) none

/-- Strategy mapping every error to `SuperviseStrategy.Ignore`. -/
def c1Strategy : PyErr Nat → Except (PyErr Nat) SuperviseStrategy :=
  fun _ => .ok .Ignore

/-- C1 (failing part): when the wrapped handler raises and the strategy
returns `SuperviseStrategy.Ignore`, the supervising `handle` returns Python
`None` — the source's `case _, SuperviseStrategy.Ignore:` is a two-element
sequence pattern that an enum member never matches, so the `match` falls
through — and not `Behaviors.Same` as specified. -/
theorem supervise_ignore_returns_none :
    (BehaviorHandler.supervise c1Strategy c1Inner).handle 0 = .ok .pynone ∧
    (BehaviorHandler.supervise c1Strategy c1Inner).handle 0 ≠
      .ok (.sig .Same) := by
  refine ⟨rfl, ?_⟩
  intro h
  simp [BehaviorHandler.handle, BehaviorHandler.run, c1Strategy, c1Inner] at h

/-- C3 (counterexample): a blocking send (`BehaviorProcessorImpl.handle`)
on a closed mailbox, at the concrete message `0`, raises nothing to the
caller — contradicting the claim that it raises a `MailboxClosedError` —
and instead drops the message with only a warning. -/
theorem handle_closed_counterexample :
    (BehaviorProcessorImpl.handle true (0 : Nat)).raised = none ∧
    (BehaviorProcessorImpl.handle true (0 : Nat)).delivered = none ∧
    (BehaviorProcessorImpl.handle true (0 : Nat)).warnings = [closedWarnMsg] :=
  ⟨rfl, rfl, rfl⟩

/-- C3 (amended): after the mailbox is closed, a blocking send completes
without raising, drops the message and logs a warning — exactly the same
outcome that `handle_nowait`'s deferred send eventually produces. -/
theorem handle_closed_warns {α : Type} (msg : α) :
    BehaviorProcessorImpl.handle true msg =
      ⟨none, none, [closedWarnMsg]⟩ ∧
    BehaviorProcessorImpl.handle_nowait true msg =
      BehaviorProcessorImpl.handle true msg :=
  ⟨rfl, rfl⟩

/-- C8: a dispatch returning `Same` leaves the run unchanged — the rest of
the run is exactly the loop on the remaining messages with the same active
handler `b` and the same `behavior` variable — and a dispatch returning
`Ignored` does the same except that it additionally prints the ignored
message. -/
theorem same_ignored_keep_handler {α ε : Type} (b : BehaviorHandler α ε)
    (bvar : FactoryVar α ε) (m : α) (rest : List α) :
    (b.handle m = .ok (.sig .Same) →
      msgLoop b bvar false (m :: rest) = msgLoop b bvar false rest) ∧
    (b.handle m = .ok (.sig .Ignored) →
      msgLoop b bvar false (m :: rest) =
        (.printedIgnored m :: (msgLoop b bvar false rest).1,
         (msgLoop b bvar false rest).2)) := by
  constructor <;> intro h <;> simp [msgLoop, h]

/-- Concrete handler: `Same` on even messages, `Ignored` on odd ones. -/
def c8Handler : BehaviorHandler Nat Nat :=
  .receive
    (fun m => if m % 2 = 0 then .ok (.sig .Same) else .ok (.sig .Ignored))
    none

/-- Witness for C8: message 2 is handled as `Same` (run unchanged),
message 1 as `Ignored` (run unchanged plus the printed diagnostic). -/
theorem same_ignored_keep_handler_witness :
    msgLoop c8Handler (.factory ⟨c8Handler⟩) false [2] =
      msgLoop c8Handler (.factory ⟨c8Handler⟩) false [] ∧
    msgLoop c8Handler (.factory ⟨c8Handler⟩) false [1] =
      (.printedIgnored 1 ::
        (msgLoop c8Handler (.factory ⟨c8Handler⟩) false []).1,
       (msgLoop c8Handler (.factory ⟨c8Handler⟩) false []).2) :=
  ⟨(same_ignored_keep_handler c8Handler (.factory ⟨c8Handler⟩) 2 []).1 rfl,
   (same_ignored_keep_handler c8Handler (.factory ⟨c8Handler⟩) 1 []).2 rfl⟩

/-- Replacement handler of the C2 scenario: answers `Same` to everything. -/
def c2New : BehaviorHandler Nat Nat :=
  .receive (fun _ => .ok (.sig .Same)) none

/-- Initial handler of the C2 scenario: returns the replacement behavior
`c2New` on message 1 and `Ignored` on everything else. -/
def c2Old : BehaviorHandler Nat Nat :=
  .receive
    (fun m => if m = 1 then .ok (.handler c2New) else .ok (.sig .Ignored))
    none

/-- C2 (failing part): after message 1 returns the replacement behavior
`c2New`, message 2 is still dispatched to the old handler — the loop's
`behavior = new_behavior` assigns the factory variable, not the active
handler `b` — as shown by the `Message ignored` print for message 2, which
`c2New` (answering `Same`) would never produce. -/
theorem replacement_handler_not_activated :
    behavior_task ⟨c2Old⟩ [1, 2] =
      ([.setupRun, .printedIgnored 2, .teardown], .terminated) ∧
    c2New.handle 2 = .ok (.sig .Same) :=
  ⟨rfl, rfl⟩

/-- Replacement handler of the C5 scenario. -/
def c5New : BehaviorHandler Nat Nat :=
  .receive (fun _ => .ok (.sig .Same)) none

/-- Initial handler of the C5 scenario: installs `c5New` on message 1 and
asks for a `Restart` on everything else. -/
def c5Handler : BehaviorHandler Nat Nat :=
  .receive
    (fun m => if m = 1 then .ok (.handler c5New) else .ok (.sig .Restart))
    none

/-- Handler that asks for a `Restart` on every message. -/
def c5RestartOnly : BehaviorHandler Nat Nat :=
  .receive (fun _ => .ok (.sig .Restart)) none

/-- C5 (failing part): a `Restart` after a dispatch that returned a
replacement behavior does not re-enter the original top-level behavior —
the `behavior` variable now holds the (non-callable) replacement handler,
so `behavior()` raises `TypeError` and the task dies without a second setup
run; only when no replacement occurred does `Restart` re-run the original
factory (second conjunct: teardown followed by a fresh setup run). -/
theorem restart_after_replacement_crashes :
    behavior_task ⟨c5Handler⟩ [1, 2] =
      ([.setupRun, .teardown], .typeError) ∧
    behavior_task ⟨c5RestartOnly⟩ [5] =
      ([.setupRun, .teardown, .setupRun, .teardown], .terminated) :=
  ⟨rfl, rfl⟩

/-- C4: the two termination paths are indistinguishable and tear down once.
(1) With the mailbox closed by a handled `Stop`, the rest of the run is a
single teardown and a normal exit, whatever messages were still pending;
(2) mailbox exhaustion gives the very same result; (3) over a whole
`behavior_task` run, teardowns and setup entries balance exactly — each
entered scope is torn down exactly once; (4) a dispatch returning `Stop`
closes the mailbox and then terminates through path (1). -/
theorem stop_and_exhaustion_terminate_alike {α ε : Type} :
    (∀ (b : BehaviorHandler α ε) (bvar : FactoryVar α ε) (rest : List α),
      msgLoop b bvar true rest = ([.teardown], .terminated)) ∧
    (∀ (b : BehaviorHandler α ε) (bvar : FactoryVar α ε) (closed : Bool),
      msgLoop b bvar closed [] = ([.teardown], .terminated)) ∧
    (∀ (f : SetupScope α ε) (msgs : List α),
      countEvent isTeardown (behavior_task f msgs).1 =
        countEvent isSetupRun (behavior_task f msgs).1) ∧
    (∀ (b : BehaviorHandler α ε) (bvar : FactoryVar α ε) (m : α)
        (rest : List α),
      b.handle m = .ok (.sig .Stop) →
        msgLoop b bvar false (m :: rest) =
          ([.mailboxClosed, .teardown], .terminated)) := by
  refine ⟨?_, ?_, ?_, ?_⟩
  · intro b bvar rest
    cases rest <;> rfl
  · intro b bvar closed
    rfl
  · intro f msgs
    have h := msgLoop_teardown_count msgs f.enter (.factory f) false
    simp [behavior_task, countEvent, isTeardown, isSetupRun] at h ⊢
    omega
  · intro b bvar m rest h
    cases rest <;> simp [msgLoop, h]

/-- Handler that answers `Stop` to every message. -/
def c4StopHandler : BehaviorHandler Nat Nat :=
  .receive (fun _ => .ok (.sig .Stop)) none

/-- Witness for C4's hypothesis-bearing conjunct: a `Stop` dispatch with a
message still pending closes the mailbox, tears down once and terminates. -/
theorem stop_and_exhaustion_terminate_alike_witness :
    msgLoop c4StopHandler (.factory ⟨c4StopHandler⟩) false [0, 7] =
      ([.mailboxClosed, .teardown], .terminated) :=
  (@stop_and_exhaustion_terminate_alike Nat Nat).2.2.2 c4StopHandler
    (.factory ⟨c4StopHandler⟩) 0 [7] rfl

end Pyctor
